import Mathlib

/-!
A shallow embedding of `src/arch/x64/clockcounter.c` (CellOS clock counter
management): the ClockSource registry, the source selector, the wall-clock
state with its advancement paths, the time query API, and the ACPI PM-timer
reference driver.

Machine integers are modelled by `Nat`/`Int` with explicit `% 2 ^ 32` where
32-bit unsigned overflow matters (`uint32_t` arithmetic in the driver).
Calls into external collaborators (ACPICA's `AcpiGetTimer` and
`AcpiGetTimerDuration`) are modelled by an environment record that supplies
their outcome for a call; a failing outcome is `none`.
-/

namespace CellOS

/-- `OK` status code (from the kernel headers; the conventional value 0). -/
def OK : Int := 0

/-- `ENODEV` errno (from the kernel headers; the conventional value 19).
It only matters that it is distinct from `OK`. -/
def ENODEV : Int := 19

/-- `NSECS_PER_SEC` from the kernel headers: nanoseconds per second. -/
def NSECS_PER_SEC : Nat := 1000000000

/-- `PM_TIMER_FREQUENCY` (ACPICA): the fixed ACPI PM timer frequency in Hz. -/
def PM_TIMER_FREQUENCY : Nat := 3579545

/-- `struct timespec` — seconds and nanoseconds (`time_t`/`long`, signed). -/
structure timespec where
  tv_sec : Int
  tv_nsec : Int
deriving DecidableEq, Repr

/-- `struct timeval` — seconds and microseconds. -/
structure timeval where
  tv_sec : Int
  tv_usec : Int
deriving DecidableEq, Repr

/-- Modelled from the spec: `timespec_add_ns` is declared in the repository's
time headers, not under `src/`.  The spec describes WallClock as "mutated only
by adding non-negative nanosecond deltas with carry propagation into seconds"
and requires that a delta pushing nanoseconds past 1e9 "correctly increments
seconds and reduces nanoseconds modulo 1,000,000,000". -/
def timespec_add_ns (ts : timespec) (ns : Int) : timespec :=
  let total := ts.tv_nsec + ns
  { tv_sec := ts.tv_sec + total / 1000000000, tv_nsec := total % 1000000000 }

/-- Modelled from the spec: `timespec_to_abstime` is declared in the
repository's time headers, not under `src/`.  The spec describes
`now_monotonic_ns` as a "convenience composition of the above into a single
nanosecond count since epoch". -/
def timespec_to_abstime (ts : timespec) : Int :=
  ts.tv_sec * 1000000000 + ts.tv_nsec

/-- A `timespec` viewed as nanoseconds since epoch (`tv_sec * 1e9 + tv_nsec`),
the view used by the monotonicity property. -/
def timespec.toNs (ts : timespec) : Int :=
  ts.tv_sec * 1000000000 + ts.tv_nsec

/-- `struct clockcounter`.  The function-pointer capabilities
`counter_enable`/`counter_disable` are modelled by presence flags
(`counter_has_enable`/`counter_has_disable`, a NULL pointer being `false`)
together with the abstract device activation state `counter_enabled`, which an
enable call sets and a disable call clears.  The PM-timer driver's concrete
enable behaviour (which also initializes the descriptor fields) is modelled
separately as `pm_timer_enable` below. -/
structure clockcounter where
  counter_name : String := ""
  counter_bits : Nat := 0
  counter_frequency_hz : Nat := 0
  counter_resolution_ns : Nat := 0
  counter_fixup_period : Nat := 0
  counter_latest_read : Nat := 0
  counter_has_enable : Bool := false
  counter_has_disable : Bool := false
  counter_enabled : Bool := false
deriving DecidableEq, Repr

instance : Inhabited clockcounter := ⟨{}⟩

/-- The mutable globals of `clockcounter.c`.  Registered sources are
identified by their address; we use `Nat` identities, with `sources` giving
the current contents of each `struct clockcounter`.  `clockcounter_list`
holds the identities currently linked into the registry list, in insertion
order.  `global_clockcounter` is the active-source pointer (`none` = NULL)
and `real_wall_time` the WallClock value. -/
structure KernelState where
  clockcounter_list : List Nat
  sources : Nat → clockcounter
  global_clockcounter : Option Nat
  real_wall_time : timespec

/-- Identity of the statically allocated `clockcounter_pm_timer`. -/
def pm_timer_id : Nat := 0

/-- Replace the source stored at identity `i`. -/
def updateSrc (f : Nat → clockcounter) (i : Nat) (d : clockcounter) :
    Nat → clockcounter :=
  fun j => if j = i then d else f j

/-- Set the abstract activation state of source `i`. -/
def setEnabled (s : KernelState) (i : Nat) (b : Bool) : KernelState :=
  let d := s.sources i
  { s with sources := updateSrc s.sources i { d with counter_enabled := b } }

/-- `clockcounter_add`: append the counter to the global clock list and, if it
defines an enable operation, invoke it (modelled by its effect on the
activation state).  Returns `OK` unconditionally. -/
def clockcounter_add (counter : Nat) (s : KernelState) : Int × KernelState :=
  let s1 := { s with clockcounter_list := s.clockcounter_list ++ [counter] }
  let s2 := if (s1.sources counter).counter_has_enable
            then setEnabled s1 counter true else s1
  (OK, s2)

/-- `clockcounter_remove`: unlink the counter from the global clock list.
Returns `OK` unconditionally; the source's disable operation is not invoked
and neither the source contents nor `global_clockcounter` are touched. -/
def clockcounter_remove (counter : Nat) (s : KernelState) : Int × KernelState :=
  (OK, { s with clockcounter_list := s.clockcounter_list.erase counter })

/-- `select_global_clockcounter`: disable the currently active source (when
one is set and it defines a disable operation), reset the candidate to
`&clockcounter_pm_timer`, scan the registry list replacing the candidate
whenever a source's `counter_resolution_ns` is strictly smaller, record the
winner in `global_clockcounter`, and call the winner's enable operation.
The C code invokes `counter_enable` through the pointer unconditionally (a
winner with a NULL `counter_enable` would fault); every source in this
development defines one, and the call is modelled by its effect on the
activation state.  The loop's `best &&` NULL test is vacuous for list
entries and has no model counterpart.

`scan` is the selector's `LIST_FOREACH` loop: starting from candidate `b`,
replace the candidate whenever an entry's `counter_resolution_ns` is strictly
smaller. -/
def scan (f : Nat → clockcounter) (b : Nat) (l : List Nat) : Nat :=
  l.foldl
    (fun best c =>
      if (f c).counter_resolution_ns < (f best).counter_resolution_ns
      then c else best)
    b

/-- The disable step at the top of `select_global_clockcounter`. -/
def select_disable_old (s : KernelState) : KernelState :=
  match s.global_clockcounter with
  | some g =>
      if (s.sources g).counter_has_disable then setEnabled s g false else s
  | none => s

/-- The winner of the selector's scan: the candidate left after the loop,
starting from `&clockcounter_pm_timer`. -/
def select_winner (s : KernelState) : Nat :=
  scan (select_disable_old s).sources pm_timer_id
    (select_disable_old s).clockcounter_list

def select_global_clockcounter (s : KernelState) : Nat × KernelState :=
  let s1 := select_disable_old s
  let w := select_winner s
  let s2 := { s1 with global_clockcounter := some w }
  (w, if (s2.sources w).counter_has_enable then setEnabled s2 w true else s2)

/-- The outcome, for one advancement call, of the active source's
`counter_read` and `counter_time_elapsed` capabilities: `sample` is the raw
value `counter_read()` returns on this call and `elapsed` the behaviour of
`counter_time_elapsed`.  (`pm_env` below instantiates this with the PM-timer
driver over an ACPI environment.) -/
structure CounterEnv where
  sample : Nat
  elapsed : Nat → Nat → Int

/-- `real_wall_time_regular_update`: the periodic advancement path.  If no
source is active it returns without doing anything; otherwise it performs the
sample-delta-accumulate step on `real_wall_time`. -/
def real_wall_time_regular_update (env : CounterEnv) (s : KernelState) :
    KernelState :=
  match s.global_clockcounter with
  | none => s
  | some i =>
      let tc := s.sources i
      let last_read := tc.counter_latest_read
      let tc' := { tc with counter_latest_read := env.sample }
      let eplased := env.elapsed last_read env.sample
      { s with sources := updateSrc s.sources i tc',
               real_wall_time := timespec_add_ns s.real_wall_time eplased }

/-- `gettimeofday`: returns `ENODEV` without writing `*tp` when no source is
active; otherwise performs the sample-delta-accumulate step and writes the
updated WallClock truncated to microseconds.  The written `timeval` is the
`Option` component (`none` = `*tp` not written). -/
def gettimeofday (env : CounterEnv) (s : KernelState) :
    Int × Option timeval × KernelState :=
  match s.global_clockcounter with
  | none => (ENODEV, none, s)
  | some i =>
      let tc := s.sources i
      let last := tc.counter_latest_read
      let tc' := { tc with counter_latest_read := env.sample }
      let eplased := env.elapsed last env.sample
      let w' := timespec_add_ns s.real_wall_time eplased
      (OK, some { tv_sec := w'.tv_sec, tv_usec := w'.tv_nsec / 1000 },
       { s with sources := updateSrc s.sources i tc', real_wall_time := w' })

/-- `getnstimeofday`: identical to `gettimeofday` except that the written
`timespec` keeps full nanosecond resolution. -/
def getnstimeofday (env : CounterEnv) (s : KernelState) :
    Int × Option timespec × KernelState :=
  match s.global_clockcounter with
  | none => (ENODEV, none, s)
  | some i =>
      let tc := s.sources i
      let last := tc.counter_latest_read
      let tc' := { tc with counter_latest_read := env.sample }
      let eplased := env.elapsed last env.sample
      let w' := timespec_add_ns s.real_wall_time eplased
      (OK, some w',
       { s with sources := updateSrc s.sources i tc', real_wall_time := w' })

/-- `get_now_nanosecond`: calls `getnstimeofday` on a stack-allocated
`struct timespec now` and converts `now` without checking the return status.
When `getnstimeofday` fails with `ENODEV` it does not write `*tp`, so the
conversion reads the uninitialized local; `junk` models the arbitrary stack
contents `now` holds in that case. -/
def get_now_nanosecond (junk : timespec) (env : CounterEnv) (s : KernelState) :
    Int × KernelState :=
  let r := getnstimeofday env s
  let now := r.2.1.getD junk
  (timespec_to_abstime now, r.2.2)

/-- The outcome of the ACPI collaborator calls for one driver call:
`acpi_get_timer` is what `AcpiGetTimer` yields (`none` = not `AE_OK`),
`acpi_get_timer_duration` what `AcpiGetTimerDuration` yields for a pair of
raw samples, and `acpi_flags_32bit_timer` whether `AcpiGbl_FADT.Flags` has
`ACPI_FADT_32BIT_TIMER` set. -/
structure AcpiEnv where
  acpi_get_timer : Option Nat
  acpi_get_timer_duration : Nat → Nat → Option Nat
  acpi_flags_32bit_timer : Bool

/-- `pm_timer_enable`: fills in the PM timer's descriptor fields (24- or
32-bit width from the FADT capability flag, the fixed frequency, the derived
resolution, a 2-second fixup period) and returns `OK`.  The initial `printk`
is diagnostic only. -/
def pm_timer_enable (flags_32bit : Bool) (c : clockcounter) :
    Int × clockcounter :=
  (OK, { c with
    counter_bits := if flags_32bit then 32 else 24,
    counter_frequency_hz := PM_TIMER_FREQUENCY,
    counter_resolution_ns := NSECS_PER_SEC / PM_TIMER_FREQUENCY,
    counter_fixup_period := 2 * NSECS_PER_SEC })

/-- `pm_timer_disable`: does nothing and returns `OK`. -/
def pm_timer_disable : Int := OK

/-- `pm_timer_counter_read`: reads the hardware counter via `AcpiGetTimer`
(a `uint32_t` out-parameter).  On failure it logs and returns the sentinel
value 0.  The second component is the list of log lines emitted. -/
def pm_timer_counter_read (e : AcpiEnv) : Nat × List String :=
  match e.acpi_get_timer with
  | none => (0, ["pm_timer_counter_read - AcpiGetTimer fail\n"])
  | some now => (now % 2 ^ 32, [])

/-- `pm_timer_counter_time_elapsed`: converts two raw samples to elapsed
nanoseconds via `AcpiGetTimerDuration` (which yields microseconds in a
`uint32_t`).  On failure it logs and returns the sentinel value 0.  The
microsecond-to-nanosecond multiplication `time_us * 1000` is performed in
`uint32_t` arithmetic, hence the `% 2 ^ 32`, before the cast to the signed
`abstime_t`. -/
def pm_timer_counter_time_elapsed (e : AcpiEnv) (t1 t2 : Nat) :
    Int × List String :=
  match e.acpi_get_timer_duration (t1 % 2 ^ 32) (t2 % 2 ^ 32) with
  | none => (0, ["pm_timer_counter_time_elapsed - AcpiGetTimerDuration fail\n"])
  | some time_us => (Int.ofNat ((time_us % 2 ^ 32 * 1000) % 2 ^ 32), [])

/-- The PM-timer driver's capabilities packaged as the per-call behaviour the
advancement paths consume when `clockcounter_pm_timer` is the active
source. -/
def pm_env (e : AcpiEnv) : CounterEnv :=
  { sample := (pm_timer_counter_read e).1,
    elapsed := fun a b => (pm_timer_counter_time_elapsed e a b).1 }

/-- The static initializer of `clockcounter_pm_timer`: only the name and the
four capability operations are set; the numeric descriptor fields stay zero
until `pm_timer_enable` runs. -/
def clockcounter_pm_timer_static : clockcounter :=
  { counter_name := "PMT", counter_has_enable := true,
    counter_has_disable := true }

/-- Identity of `clockcounter_pm_counter`. -/
def pm_counter_id : Nat := 1

/-- `clockcounter_subsystem_init`: initializes the registry, registers the PM
timer and the PM-counter source, and runs the selector.
`clockcounter_pm_counter` is declared elsewhere in the repository (not under
`src/`); its contents are the parameter `pc`.  `w` is the `real_wall_time`
value (the WallClock is initialized separately by `real_wall_time_init`). -/
def clockcounter_subsystem_init (pc : clockcounter) (w : timespec) :
    KernelState :=
  let s0 : KernelState :=
    { clockcounter_list := [],
      sources := fun i =>
        if i = pm_timer_id then clockcounter_pm_timer_static
        else if i = pm_counter_id then pc else default,
      global_clockcounter := none,
      real_wall_time := w }
  let s1 := (clockcounter_add pm_timer_id s0).2
  let s2 := (clockcounter_add pm_counter_id s1).2
  (select_global_clockcounter s2).2

/-- One call into the subsystem: a registry operation, a selector run, or one
of the four advancement paths (each advancement call carries the outcome of
the active source's capability calls for that call, and `getnow` the stack
contents of its uninitialized local). -/
inductive KernelOp where
  | add (counter : Nat)
  | remove (counter : Nat)
  | select
  | update (env : CounterEnv)
  | gtod (env : CounterEnv)
  | gnstod (env : CounterEnv)
  | getnow (junk : timespec) (env : CounterEnv)

/-- State effect of one subsystem call. -/
def KernelOp.exec (op : KernelOp) (s : KernelState) : KernelState :=
  match op with
  | .add c => (clockcounter_add c s).2
  | .remove c => (clockcounter_remove c s).2
  | .select => (select_global_clockcounter s).2
  | .update env => real_wall_time_regular_update env s
  | .gtod env => (gettimeofday env s).2.2
  | .gnstod env => (getnstimeofday env s).2.2
  | .getnow junk env => (get_now_nanosecond junk env s).2

/-- State effect of a sequence of subsystem calls. -/
def KernelOp.execs : List KernelOp → KernelState → KernelState
  | [], s => s
  | op :: ops, s => KernelOp.execs ops (op.exec s)

/-- Whether the call is one of the wall-clock advancement paths. -/
def KernelOp.isAdvance : KernelOp → Bool
  | .add _ => false
  | .remove _ => false
  | .select => false
  | .update _ => true
  | .gtod _ => true
  | .gnstod _ => true
  | .getnow _ _ => true

/-- The elapsed delta `counter_time_elapsed` returns for one advancement call
in state `s` (`none` when no source is active and the call returns early). -/
def stepDelta (env : CounterEnv) (s : KernelState) : Option Int :=
  match s.global_clockcounter with
  | none => none
  | some i => some (env.elapsed (s.sources i).counter_latest_read env.sample)

/-- The elapsed delta a subsystem call feeds to `timespec_add_ns`, if any. -/
def KernelOp.delta (op : KernelOp) (s : KernelState) : Option Int :=
  match op with
  | .update env => stepDelta env s
  | .gtod env => stepDelta env s
  | .gnstod env => stepDelta env s
  | .getnow _ env => stepDelta env s
  | _ => none

/-- All elapsed deltas returned by `counter_time_elapsed` along a sequence of
subsystem calls started in `s`. -/
def KernelOp.deltas : List KernelOp → KernelState → List Int
  | [], _ => []
  | op :: ops, s =>
      match op.delta s with
      | none => KernelOp.deltas ops (op.exec s)
      | some d => d :: KernelOp.deltas ops (op.exec s)

/-- Following the spec's description of the sample-delta-accumulate step on
the active source `i`: "read the active source's previous `latest_read`, take
a fresh sample, store it back as the new `latest_read`, compute
`elapsed = source.elapsed(prev, fresh)`, add `elapsed` nanoseconds to
WallClock with carry into seconds".  Used as the specification side of the
advancement-path claims. -/
def spec_sample_delta_accumulate (env : CounterEnv) (i : Nat) (s : KernelState) :
    KernelState :=
  let prev := (s.sources i).counter_latest_read
  let fresh := env.sample
  let d := s.sources i
  let elapsed := env.elapsed prev fresh
  { s with sources := updateSrc s.sources i { d with counter_latest_read := fresh },
           real_wall_time := timespec_add_ns s.real_wall_time elapsed }

/-- Concrete fixture: the PM timer's contents after `pm_timer_enable` ran for
a 24-bit timer, actively counting, with a concrete last sample. -/
def pmFix : clockcounter :=
  { counter_name := "PMT", counter_bits := 24,
    counter_frequency_hz := PM_TIMER_FREQUENCY,
    counter_resolution_ns := NSECS_PER_SEC / PM_TIMER_FREQUENCY,
    counter_fixup_period := 2 * NSECS_PER_SEC,
    counter_latest_read := 100,
    counter_has_enable := true, counter_has_disable := true,
    counter_enabled := true }

/-- Concrete fixture: a higher-resolution registered source. -/
def hrFix : clockcounter :=
  { counter_name := "HRC", counter_bits := 64,
    counter_frequency_hz := 1000000000,
    counter_resolution_ns := 100,
    counter_fixup_period := 2 * NSECS_PER_SEC,
    counter_latest_read := 0,
    counter_has_enable := true, counter_has_disable := true,
    counter_enabled := true }

/-- Concrete fixture: the source store holding `pmFix` at identity 0 and
`hrFix` at identity 1. -/
def srcFix : Nat → clockcounter :=
  fun i => if i = 0 then pmFix else if i = 1 then hrFix else default

/-- Concrete fixture: both sources registered, the PM timer active. -/
def sFix : KernelState :=
  { clockcounter_list := [0, 1], sources := srcFix,
    global_clockcounter := some 0,
    real_wall_time := { tv_sec := 100, tv_nsec := 500 } }

/-- Concrete fixture: both sources registered and actively counting (as left
by two `clockcounter_add` calls), no source selected yet. -/
def sPreSelect : KernelState :=
  { clockcounter_list := [0, 1], sources := srcFix,
    global_clockcounter := none,
    real_wall_time := { tv_sec := 0, tv_nsec := 0 } }

/-- Concrete fixture: empty registry, no active source. -/
def sNoSrc : KernelState :=
  { clockcounter_list := [], sources := fun _ => default,
    global_clockcounter := none,
    real_wall_time := { tv_sec := 100, tv_nsec := 500 } }

/-- Concrete fixture: per-call capability outcome where the raw counter moved
from the stored sample 100 to 150 and the source reports the raw difference
as nanoseconds. -/
def envFix : CounterEnv :=
  { sample := 150, elapsed := fun a b => (b : Int) - (a : Int) }

/-- One admissible behaviour of the external `AcpiGetTimerDuration`
collaborator for a 24-bit PM timer, per its documented contract: the tick
difference modulo `2 ^ 24` converted to microseconds at the fixed
frequency. -/
def acpi_duration_24 (a b : Nat) : Nat :=
  (2 ^ 24 + b % 2 ^ 24 - a % 2 ^ 24) % 2 ^ 24 * 1000000 / PM_TIMER_FREQUENCY

/-- Concrete fixture: an ACPI environment in which `AcpiGetTimer` fails while
`AcpiGetTimerDuration` answers per its 24-bit contract. -/
def aenvReadFail : AcpiEnv :=
  { acpi_get_timer := none,
    acpi_get_timer_duration := fun a b => some (acpi_duration_24 a b),
    acpi_flags_32bit_timer := false }

/-- Concrete fixture: an ACPI environment in which `AcpiGetTimer` reads the
true counter value 8388608 and `AcpiGetTimerDuration` answers per its 24-bit
contract. -/
def aenvReadOk : AcpiEnv :=
  { acpi_get_timer := some 8388608,
    acpi_get_timer_duration := fun a b => some (acpi_duration_24 a b),
    acpi_flags_32bit_timer := false }

/-- Concrete fixture: an ACPI environment in which both collaborator calls
fail. -/
def aenvAllFail : AcpiEnv :=
  { acpi_get_timer := none,
    acpi_get_timer_duration := fun _ _ => none,
    acpi_flags_32bit_timer := false }

/-- Concrete fixture: only the PM timer registered and active, its stored
sample sitting at mid-range (0x800000), wall clock at 100 s. -/
def sPmMid : KernelState :=
  { clockcounter_list := [0],
    sources := fun i =>
      if i = 0 then { pmFix with counter_latest_read := 8388608 } else default,
    global_clockcounter := some 0,
    real_wall_time := { tv_sec := 100, tv_nsec := 0 } }

/-! ## Helper lemmas -/

lemma setEnabled_sources (s : KernelState) (i : Nat) (b : Bool) (c : Nat) :
    (setEnabled s i b).sources c =
      if c = i then { s.sources i with counter_enabled := b }
      else s.sources c := rfl

lemma setEnabled_res (s : KernelState) (i : Nat) (b : Bool) (c : Nat) :
    ((setEnabled s i b).sources c).counter_resolution_ns =
      (s.sources c).counter_resolution_ns := by
  rw [setEnabled_sources]
  by_cases h : c = i
  · subst h; simp
  · simp [h]

lemma setEnabled_has_enable (s : KernelState) (i : Nat) (b : Bool) (c : Nat) :
    ((setEnabled s i b).sources c).counter_has_enable =
      (s.sources c).counter_has_enable := by
  rw [setEnabled_sources]
  by_cases h : c = i
  · subst h; simp
  · simp [h]

lemma setEnabled_enabled_other (s : KernelState) (i : Nat) (b : Bool) (c : Nat)
    (h : c ≠ i) :
    ((setEnabled s i b).sources c).counter_enabled =
      (s.sources c).counter_enabled := by
  rw [setEnabled_sources, if_neg h]

lemma setEnabled_list (s : KernelState) (i : Nat) (b : Bool) :
    (setEnabled s i b).clockcounter_list = s.clockcounter_list := rfl

lemma setEnabled_global (s : KernelState) (i : Nat) (b : Bool) :
    (setEnabled s i b).global_clockcounter = s.global_clockcounter := rfl

lemma setEnabled_wall (s : KernelState) (i : Nat) (b : Bool) :
    (setEnabled s i b).real_wall_time = s.real_wall_time := rfl

lemma select_disable_old_list (s : KernelState) :
    (select_disable_old s).clockcounter_list = s.clockcounter_list := by
  unfold select_disable_old
  cases s.global_clockcounter with
  | none => rfl
  | some g =>
      dsimp only
      split
      · exact setEnabled_list ..
      · rfl

lemma select_disable_old_global (s : KernelState) :
    (select_disable_old s).global_clockcounter = s.global_clockcounter := by
  unfold select_disable_old
  cases hg : s.global_clockcounter with
  | none => exact hg
  | some g =>
      dsimp only
      split
      · rw [setEnabled_global, hg]
      · exact hg

lemma select_disable_old_wall (s : KernelState) :
    (select_disable_old s).real_wall_time = s.real_wall_time := by
  unfold select_disable_old
  cases s.global_clockcounter with
  | none => rfl
  | some g =>
      dsimp only
      split
      · exact setEnabled_wall ..
      · rfl

lemma select_disable_old_res (s : KernelState) (c : Nat) :
    ((select_disable_old s).sources c).counter_resolution_ns =
      (s.sources c).counter_resolution_ns := by
  unfold select_disable_old
  cases s.global_clockcounter with
  | none => rfl
  | some g =>
      dsimp only
      split
      · exact setEnabled_res ..
      · rfl

lemma select_disable_old_has_enable (s : KernelState) (c : Nat) :
    ((select_disable_old s).sources c).counter_has_enable =
      (s.sources c).counter_has_enable := by
  unfold select_disable_old
  cases s.global_clockcounter with
  | none => rfl
  | some g =>
      dsimp only
      split
      · exact setEnabled_has_enable ..
      · rfl

lemma select_disable_old_enabled_other (s : KernelState) (c : Nat)
    (h : s.global_clockcounter ≠ some c) :
    ((select_disable_old s).sources c).counter_enabled =
      (s.sources c).counter_enabled := by
  unfold select_disable_old
  cases hg : s.global_clockcounter with
  | none => rfl
  | some g =>
      dsimp only
      split
      · refine setEnabled_enabled_other _ _ _ _ ?_
        intro hcg
        exact h (by rw [hg, hcg])
      · rfl

lemma scan_nil (f : Nat → clockcounter) (b : Nat) : scan f b [] = b := rfl

lemma scan_cons (f : Nat → clockcounter) (b a : Nat) (l : List Nat) :
    scan f b (a :: l) =
      scan f
        (if (f a).counter_resolution_ns < (f b).counter_resolution_ns
         then a else b) l := rfl

lemma scan_congr (f g : Nat → clockcounter)
    (h : ∀ c, (f c).counter_resolution_ns = (g c).counter_resolution_ns) :
    ∀ (l : List Nat) (b : Nat), scan f b l = scan g b l := by
  intro l
  induction l with
  | nil => intro b; rfl
  | cons a l ih =>
      intro b
      rw [scan_cons, scan_cons, h a, h b]
      exact ih _

lemma scan_min (f : Nat → clockcounter) :
    ∀ (l : List Nat) (b : Nat), ∀ c ∈ b :: l,
      (f (scan f b l)).counter_resolution_ns ≤ (f c).counter_resolution_ns := by
  intro l
  induction l with
  | nil =>
      intro b c hc
      rcases List.mem_cons.mp hc with h | h
      · subst h; exact le_refl _
      · cases h
  | cons a l ih =>
      intro b c hc
      rw [scan_cons]
      by_cases hab :
          (f a).counter_resolution_ns < (f b).counter_resolution_ns
      · rw [if_pos hab]
        rcases List.mem_cons.mp hc with h | h
        · rw [h]
          exact le_of_lt (lt_of_le_of_lt (ih a a (List.mem_cons_self a l)) hab)
        · exact ih a c h
      · rw [if_neg hab]
        rcases List.mem_cons.mp hc with h | h
        · rw [h]; exact ih b b (List.mem_cons_self b l)
        · rcases List.mem_cons.mp h with h2 | h2
          · rw [h2]
            exact le_trans (ih b b (List.mem_cons_self b l)) (not_lt.mp hab)
          · exact ih b c (List.mem_cons.mpr (Or.inr h2))

lemma scan_first (f : Nat → clockcounter) :
    ∀ (l : List Nat) (b : Nat),
      ∃ l1 l2, b :: l = l1 ++ scan f b l :: l2 ∧
        ∀ c ∈ l1,
          (f (scan f b l)).counter_resolution_ns <
            (f c).counter_resolution_ns := by
  intro l
  induction l with
  | nil =>
      intro b
      exact ⟨[], [], rfl, by intro c hc; cases hc⟩
  | cons a l ih =>
      intro b
      rw [scan_cons]
      by_cases hab :
          (f a).counter_resolution_ns < (f b).counter_resolution_ns
      · rw [if_pos hab]
        obtain ⟨l1, l2, heq, hlt⟩ := ih a
        refine ⟨b :: l1, l2, by rw [List.cons_append, ← heq], ?_⟩
        intro c hc
        rcases List.mem_cons.mp hc with h | h
        · subst h
          exact lt_of_le_of_lt (scan_min f l a a (List.mem_cons_self a l)) hab
        · exact hlt c h
      · rw [if_neg hab]
        obtain ⟨l1, l2, heq, hlt⟩ := ih b
        cases l1 with
        | nil =>
            rw [List.nil_append] at heq
            injection heq with hb hl
            refine ⟨[], a :: l, ?_, by intro c hc; cases hc⟩
            rw [List.nil_append, ← hb]
        | cons b' l1t =>
            rw [List.cons_append] at heq
            injection heq with hb hl
            refine ⟨b :: a :: l1t, l2, ?_, ?_⟩
            · rw [List.cons_append, List.cons_append, ← hl]
            · intro c hc
              have hscanb :
                  (f (scan f b l)).counter_resolution_ns <
                    (f b).counter_resolution_ns := by
                have h3 := hlt b' (List.mem_cons_self b' l1t)
                rwa [← hb] at h3
              rcases List.mem_cons.mp hc with h | h
              · rw [h]; exact hscanb
              · rcases List.mem_cons.mp h with h2 | h2
                · rw [h2]; exact lt_of_lt_of_le hscanb (not_lt.mp hab)
                · exact hlt c (List.mem_cons.mpr (Or.inr h2))

lemma select_fst (s : KernelState) :
    (select_global_clockcounter s).1 = select_winner s := rfl

lemma select_snd_global (s : KernelState) :
    (select_global_clockcounter s).2.global_clockcounter =
      some (select_winner s) := by
  unfold select_global_clockcounter
  dsimp only
  split
  · rw [setEnabled_global]
  · rfl

lemma select_snd_list (s : KernelState) :
    (select_global_clockcounter s).2.clockcounter_list =
      s.clockcounter_list := by
  unfold select_global_clockcounter
  dsimp only
  split
  · rw [setEnabled_list]; exact select_disable_old_list s
  · exact select_disable_old_list s

lemma select_snd_wall (s : KernelState) :
    (select_global_clockcounter s).2.real_wall_time = s.real_wall_time := by
  unfold select_global_clockcounter
  dsimp only
  split
  · rw [setEnabled_wall]; exact select_disable_old_wall s
  · exact select_disable_old_wall s

lemma select_snd_res (s : KernelState) (c : Nat) :
    ((select_global_clockcounter s).2.sources c).counter_resolution_ns =
      (s.sources c).counter_resolution_ns := by
  unfold select_global_clockcounter
  dsimp only
  split
  · rw [setEnabled_res]; exact select_disable_old_res s c
  · exact select_disable_old_res s c

lemma select_winner_congr (s : KernelState) :
    select_winner s = scan s.sources pm_timer_id s.clockcounter_list := by
  unfold select_winner
  rw [select_disable_old_list]
  exact scan_congr _ _ (fun c => select_disable_old_res s c) _ _

lemma clockcounter_add_fst (c : Nat) (s : KernelState) :
    (clockcounter_add c s).1 = OK := rfl

lemma clockcounter_add_list (c : Nat) (s : KernelState) :
    (clockcounter_add c s).2.clockcounter_list =
      s.clockcounter_list ++ [c] := by
  unfold clockcounter_add
  dsimp only
  split
  · rw [setEnabled_list]
  · rfl

lemma clockcounter_add_global (c : Nat) (s : KernelState) :
    (clockcounter_add c s).2.global_clockcounter = s.global_clockcounter := by
  unfold clockcounter_add
  dsimp only
  split
  · rw [setEnabled_global]
  · rfl

lemma clockcounter_add_wall (c : Nat) (s : KernelState) :
    (clockcounter_add c s).2.real_wall_time = s.real_wall_time := by
  unfold clockcounter_add
  dsimp only
  split
  · rw [setEnabled_wall]
  · rfl

lemma clockcounter_add_sources_other (c : Nat) (s : KernelState) (i : Nat)
    (h : i ≠ c) :
    (clockcounter_add c s).2.sources i = s.sources i := by
  unfold clockcounter_add
  dsimp only
  split
  · rw [setEnabled_sources, if_neg h]
  · rfl

lemma clockcounter_add_enabled (c : Nat) (s : KernelState) :
    ((clockcounter_add c s).2.sources c).counter_enabled =
      ((s.sources c).counter_has_enable || (s.sources c).counter_enabled) := by
  unfold clockcounter_add
  dsimp only
  split
  · rename_i hen
    have hen' : (s.sources c).counter_has_enable = true := hen
    rw [setEnabled_sources, if_pos rfl, hen']
    rfl
  · rename_i hen
    have hen' : ¬(s.sources c).counter_has_enable = true := hen
    simp only [Bool.not_eq_true] at hen'
    rw [hen']
    rfl

lemma toNs_timespec_add_ns (w : timespec) (d : Int) :
    (timespec_add_ns w d).toNs = w.toNs + d := by
  unfold timespec_add_ns timespec.toNs
  dsimp only
  omega

lemma regular_update_none (env : CounterEnv) (s : KernelState)
    (h : s.global_clockcounter = none) :
    real_wall_time_regular_update env s = s := by
  unfold real_wall_time_regular_update
  rw [h]

lemma regular_update_some (env : CounterEnv) (s : KernelState) (i : Nat)
    (h : s.global_clockcounter = some i) :
    real_wall_time_regular_update env s =
      spec_sample_delta_accumulate env i s := by
  unfold real_wall_time_regular_update spec_sample_delta_accumulate
  rw [h]

lemma gettimeofday_none (env : CounterEnv) (s : KernelState)
    (h : s.global_clockcounter = none) :
    gettimeofday env s = (ENODEV, none, s) := by
  unfold gettimeofday
  rw [h]

lemma gettimeofday_some (env : CounterEnv) (s : KernelState) (i : Nat)
    (h : s.global_clockcounter = some i) :
    gettimeofday env s =
      (OK,
       some { tv_sec := (spec_sample_delta_accumulate env i s).real_wall_time.tv_sec,
              tv_usec :=
                (spec_sample_delta_accumulate env i s).real_wall_time.tv_nsec / 1000 },
       spec_sample_delta_accumulate env i s) := by
  unfold gettimeofday spec_sample_delta_accumulate
  rw [h]

lemma getnstimeofday_none (env : CounterEnv) (s : KernelState)
    (h : s.global_clockcounter = none) :
    getnstimeofday env s = (ENODEV, none, s) := by
  unfold getnstimeofday
  rw [h]

lemma getnstimeofday_some (env : CounterEnv) (s : KernelState) (i : Nat)
    (h : s.global_clockcounter = some i) :
    getnstimeofday env s =
      (OK,
       some (spec_sample_delta_accumulate env i s).real_wall_time,
       spec_sample_delta_accumulate env i s) := by
  unfold getnstimeofday spec_sample_delta_accumulate
  rw [h]

lemma spec_step_wall (env : CounterEnv) (i : Nat) (s : KernelState) :
    (spec_sample_delta_accumulate env i s).real_wall_time =
      timespec_add_ns s.real_wall_time
        (env.elapsed (s.sources i).counter_latest_read env.sample) := rfl

lemma spec_step_global (env : CounterEnv) (i : Nat) (s : KernelState) :
    (spec_sample_delta_accumulate env i s).global_clockcounter =
      s.global_clockcounter := rfl

lemma exec_wall_toNs (op : KernelOp) (s : KernelState) :
    ((op.exec s).real_wall_time).toNs =
      s.real_wall_time.toNs + (op.delta s).getD 0 := by
  cases op with
  | add c =>
      show ((clockcounter_add c s).2.real_wall_time).toNs = _
      rw [clockcounter_add_wall]
      simp [KernelOp.delta]
  | remove c =>
      show ((clockcounter_remove c s).2.real_wall_time).toNs = _
      simp [KernelOp.delta, clockcounter_remove]
  | select =>
      show (((select_global_clockcounter s).2).real_wall_time).toNs = _
      rw [select_snd_wall]
      simp [KernelOp.delta]
  | update env =>
      show ((real_wall_time_regular_update env s).real_wall_time).toNs = _
      cases hg : s.global_clockcounter with
      | none =>
          rw [regular_update_none env s hg]
          simp [KernelOp.delta, stepDelta, hg]
      | some i =>
          rw [regular_update_some env s i hg, spec_step_wall,
            toNs_timespec_add_ns]
          simp [KernelOp.delta, stepDelta, hg]
  | gtod env =>
      show (((gettimeofday env s).2.2).real_wall_time).toNs = _
      cases hg : s.global_clockcounter with
      | none =>
          rw [gettimeofday_none env s hg]
          simp [KernelOp.delta, stepDelta, hg]
      | some i =>
          rw [gettimeofday_some env s i hg]
          dsimp only
          rw [spec_step_wall, toNs_timespec_add_ns]
          simp [KernelOp.delta, stepDelta, hg]
  | gnstod env =>
      show (((getnstimeofday env s).2.2).real_wall_time).toNs = _
      cases hg : s.global_clockcounter with
      | none =>
          rw [getnstimeofday_none env s hg]
          simp [KernelOp.delta, stepDelta, hg]
      | some i =>
          rw [getnstimeofday_some env s i hg]
          dsimp only
          rw [spec_step_wall, toNs_timespec_add_ns]
          simp [KernelOp.delta, stepDelta, hg]
  | getnow junk env =>
      show (((get_now_nanosecond junk env s).2).real_wall_time).toNs = _
      unfold get_now_nanosecond
      cases hg : s.global_clockcounter with
      | none =>
          rw [getnstimeofday_none env s hg]
          simp [KernelOp.delta, stepDelta, hg]
      | some i =>
          rw [getnstimeofday_some env s i hg]
          dsimp only
          rw [spec_step_wall, toNs_timespec_add_ns]
          simp [KernelOp.delta, stepDelta, hg]

lemma exec_global_isSome (op : KernelOp) (s : KernelState)
    (h : s.global_clockcounter.isSome = true) :
    ((op.exec s).global_clockcounter).isSome = true := by
  cases op with
  | add c =>
      show ((clockcounter_add c s).2.global_clockcounter).isSome = true
      rw [clockcounter_add_global]
      exact h
  | remove c => exact h
  | select =>
      show (((select_global_clockcounter s).2).global_clockcounter).isSome = true
      rw [select_snd_global]
      rfl
  | update env =>
      cases hg : s.global_clockcounter with
      | none => rw [hg] at h; cases h
      | some i =>
          show ((real_wall_time_regular_update env s).global_clockcounter).isSome = true
          rw [regular_update_some env s i hg, spec_step_global, hg]
          rfl
  | gtod env =>
      cases hg : s.global_clockcounter with
      | none => rw [hg] at h; cases h
      | some i =>
          show (((gettimeofday env s).2.2).global_clockcounter).isSome = true
          rw [gettimeofday_some env s i hg]
          dsimp only
          rw [spec_step_global, hg]
          rfl
  | gnstod env =>
      cases hg : s.global_clockcounter with
      | none => rw [hg] at h; cases h
      | some i =>
          show (((getnstimeofday env s).2.2).global_clockcounter).isSome = true
          rw [getnstimeofday_some env s i hg]
          dsimp only
          rw [spec_step_global, hg]
          rfl
  | getnow junk env =>
      cases hg : s.global_clockcounter with
      | none =>
          show (((get_now_nanosecond junk env s).2).global_clockcounter).isSome = true
          unfold get_now_nanosecond
          rw [getnstimeofday_none env s hg]
          exact h
      | some i =>
          show (((get_now_nanosecond junk env s).2).global_clockcounter).isSome = true
          unfold get_now_nanosecond
          rw [getnstimeofday_some env s i hg]
          dsimp only
          rw [spec_step_global, hg]
          rfl

lemma execs_global_isSome :
    ∀ (ops : List KernelOp) (s : KernelState),
      s.global_clockcounter.isSome = true →
      ((KernelOp.execs ops s).global_clockcounter).isSome = true := by
  intro ops
  induction ops with
  | nil => intro s h; exact h
  | cons op ops ih =>
      intro s h
      exact ih _ (exec_global_isSome op s h)

lemma init_global_isSome (pc : clockcounter) (w : timespec) :
    ((clockcounter_subsystem_init pc w).global_clockcounter).isSome = true := by
  unfold clockcounter_subsystem_init
  dsimp only
  rw [select_snd_global]
  rfl

lemma gettimeofday_fst_of_isSome (env : CounterEnv) (s : KernelState)
    (h : s.global_clockcounter.isSome = true) :
    (gettimeofday env s).1 = OK := by
  obtain ⟨i, hi⟩ := Option.isSome_iff_exists.mp h
  rw [gettimeofday_some env s i hi]

lemma getnstimeofday_fst_of_isSome (env : CounterEnv) (s : KernelState)
    (h : s.global_clockcounter.isSome = true) :
    (getnstimeofday env s).1 = OK := by
  obtain ⟨i, hi⟩ := Option.isSome_iff_exists.mp h
  rw [getnstimeofday_some env s i hi]

lemma execs_append :
    ∀ (l1 l2 : List KernelOp) (s : KernelState),
      KernelOp.execs (l1 ++ l2) s = KernelOp.execs l2 (KernelOp.execs l1 s) := by
  intro l1
  induction l1 with
  | nil => intro l2 s; rfl
  | cons op l1 ih => intro l2 s; exact ih l2 (op.exec s)

lemma deltas_append :
    ∀ (l1 l2 : List KernelOp) (s : KernelState),
      KernelOp.deltas (l1 ++ l2) s =
        KernelOp.deltas l1 s ++ KernelOp.deltas l2 (KernelOp.execs l1 s) := by
  intro l1
  induction l1 with
  | nil => intro l2 s; rfl
  | cons op l1 ih =>
      intro l2 s
      cases hd : op.delta s with
      | none =>
          simp only [List.cons_append, KernelOp.deltas, KernelOp.execs, hd]
          exact ih l2 (op.exec s)
      | some d =>
          simp only [List.cons_append, KernelOp.deltas, KernelOp.execs, hd]
          exact congrArg (fun x => d :: x) (ih l2 (op.exec s))

lemma wall_mono_aux :
    ∀ (ops : List KernelOp) (s : KernelState),
      (∀ d ∈ KernelOp.deltas ops s, 0 ≤ d) →
      s.real_wall_time.toNs ≤ (KernelOp.execs ops s).real_wall_time.toNs := by
  intro ops
  induction ops with
  | nil => intro s _; exact le_refl _
  | cons op ops ih =>
      intro s h
      have hw := exec_wall_toNs op s
      cases hd : op.delta s with
      | none =>
          have hle : s.real_wall_time.toNs ≤ (op.exec s).real_wall_time.toNs := by
            rw [hw, hd]
            simp
          refine le_trans hle (ih (op.exec s) ?_)
          intro d hdmem
          refine h d ?_
          unfold KernelOp.deltas
          rw [hd]
          exact hdmem
      | some d0 =>
          have hmem : d0 ∈ KernelOp.deltas (op :: ops) s := by
            unfold KernelOp.deltas
            rw [hd]
            exact List.mem_cons_self d0 _
          have hle : s.real_wall_time.toNs ≤ (op.exec s).real_wall_time.toNs := by
            rw [hw, hd]
            have := h d0 hmem
            simp only [Option.getD]
            omega
          refine le_trans hle (ih (op.exec s) ?_)
          intro d hdmem
          refine h d ?_
          unfold KernelOp.deltas
          rw [hd]
          exact List.mem_cons.mpr (Or.inr hdmem)

lemma select_snd_winner_enabled (s : KernelState)
    (hen : (s.sources (select_winner s)).counter_has_enable = true) :
    ((select_global_clockcounter s).2.sources
      (select_winner s)).counter_enabled = true := by
  unfold select_global_clockcounter
  dsimp only
  split
  · rw [setEnabled_sources, if_pos rfl]
  · rename_i hcond
    exfalso
    apply hcond
    show ((select_disable_old s).sources
      (select_winner s)).counter_has_enable = true
    rw [select_disable_old_has_enable]
    exact hen

lemma select_snd_enabled_other (s : KernelState) (c : Nat)
    (hw : c ≠ select_winner s) (hg : s.global_clockcounter ≠ some c) :
    ((select_global_clockcounter s).2.sources c).counter_enabled =
      (s.sources c).counter_enabled := by
  unfold select_global_clockcounter
  dsimp only
  split
  · rw [setEnabled_sources, if_neg hw]
    exact select_disable_old_enabled_other s c hg
  · exact select_disable_old_enabled_other s c hg

/-! ## Claim theorems -/

/-- **C1.**  For every state of the registry, `select_global_clockcounter`
returns and records as the active source the source with the minimum
`counter_resolution_ns` among the candidate sequence
`pm_timer_id :: clockcounter_list` — the scan starts from the PM timer as the
initial candidate and replaces it only on strictly smaller resolution, so the
winner's resolution is minimal over that sequence and every candidate listed
strictly before the winner has strictly larger resolution: on ties the
earlier-registered source (or the PM-timer fallback) wins. -/
theorem select_global_clockcounter_min_resolution (s : KernelState) :
    (select_global_clockcounter s).2.global_clockcounter =
      some (select_global_clockcounter s).1 ∧
    (∀ c ∈ pm_timer_id :: s.clockcounter_list,
      (s.sources (select_global_clockcounter s).1).counter_resolution_ns ≤
        (s.sources c).counter_resolution_ns) ∧
    (∃ l1 l2, pm_timer_id :: s.clockcounter_list =
        l1 ++ (select_global_clockcounter s).1 :: l2 ∧
      ∀ c ∈ l1,
        (s.sources (select_global_clockcounter s).1).counter_resolution_ns <
          (s.sources c).counter_resolution_ns) := by
  refine ⟨select_snd_global s, ?_, ?_⟩
  · rw [select_fst, select_winner_congr]
    exact scan_min s.sources s.clockcounter_list pm_timer_id
  · rw [select_fst, select_winner_congr]
    exact scan_first s.sources s.clockcounter_list pm_timer_id

/-- Witness for C1 at a concrete registry: two sources registered, none
active; the winner is recorded and beats the PM-timer fallback. -/
theorem select_global_clockcounter_min_resolution_witness :
    (select_global_clockcounter sPreSelect).2.global_clockcounter =
      some (select_global_clockcounter sPreSelect).1 ∧
    (sPreSelect.sources
        (select_global_clockcounter sPreSelect).1).counter_resolution_ns ≤
      (sPreSelect.sources pm_timer_id).counter_resolution_ns := by
  obtain ⟨h1, h2, _⟩ := select_global_clockcounter_min_resolution sPreSelect
  exact ⟨h1, h2 pm_timer_id (List.mem_cons_self _ _)⟩

/-- **C6 counterexample.**  In `sPreSelect` both registered sources are
actively counting, exactly as two `clockcounter_add` calls leave them; running
the selector picks source 1 as active but leaves source 0 enabled as well
(the selector only disables the previously active source, which here is
none), so it is false that after a call to `select_global_clockcounter`
exactly one registered source is enabled with all others disabled. -/
theorem select_leaves_other_sources_enabled :
    (select_global_clockcounter sPreSelect).1 = 1 ∧
    0 ∈ (select_global_clockcounter sPreSelect).2.clockcounter_list ∧
    ((select_global_clockcounter sPreSelect).2.sources 0).counter_enabled =
      true ∧
    ((select_global_clockcounter sPreSelect).2.sources 1).counter_enabled =
      true := by
  decide

/-- **C6 (amended).**  Calling `select_global_clockcounter` twice with no
intervening registry change yields the same active source both times; after a
call the winner is recorded as active and (when it defines an enable
operation) is enabled, and the enabled state of every source other than the
winner and the previously active source is unchanged — so sources left
actively counting by registration remain enabled rather than all others being
disabled. -/
theorem select_idempotent_amended (s : KernelState) :
    (select_global_clockcounter (select_global_clockcounter s).2).1 =
      (select_global_clockcounter s).1 ∧
    (select_global_clockcounter s).2.global_clockcounter =
      some (select_global_clockcounter s).1 ∧
    ((s.sources (select_global_clockcounter s).1).counter_has_enable = true →
      ((select_global_clockcounter s).2.sources
        (select_global_clockcounter s).1).counter_enabled = true) ∧
    (∀ c, c ≠ (select_global_clockcounter s).1 →
      s.global_clockcounter ≠ some c →
      ((select_global_clockcounter s).2.sources c).counter_enabled =
        (s.sources c).counter_enabled) := by
  refine ⟨?_, select_snd_global s, ?_, ?_⟩
  · rw [select_fst, select_fst, select_winner_congr, select_winner_congr,
      select_snd_list]
    exact scan_congr _ _ (fun c => select_snd_res s c) _ _
  · intro hen
    exact select_snd_winner_enabled s hen
  · intro c hw hg
    exact select_snd_enabled_other s c hw hg

/-- Witness for C6 (amended) at a concrete registry: the second selection
returns the same winner, and the non-winning source 0 keeps its enabled
state. -/
theorem select_idempotent_amended_witness :
    (select_global_clockcounter (select_global_clockcounter sPreSelect).2).1 =
      (select_global_clockcounter sPreSelect).1 ∧
    ((select_global_clockcounter sPreSelect).2.sources 0).counter_enabled =
      (sPreSelect.sources 0).counter_enabled := by
  refine ⟨(select_idempotent_amended sPreSelect).1, ?_⟩
  exact (select_idempotent_amended sPreSelect).2.2.2 0 (by decide) (by decide)

/-- **C7.**  `clockcounter_add` appends the source to the registry list,
invokes its enable operation exactly when the source defines one (observable
as the activation state becoming true, otherwise unchanged), touches no other
source, and returns `OK`; `clockcounter_remove` erases the source from the
list, returns `OK`, and leaves every source's contents untouched — in
particular it never invokes the disable operation — as well as the active
pointer. -/
theorem clockcounter_add_remove_contract (c : Nat) (s : KernelState) :
    (clockcounter_add c s).1 = OK ∧
    (clockcounter_add c s).2.clockcounter_list = s.clockcounter_list ++ [c] ∧
    ((clockcounter_add c s).2.sources c).counter_enabled =
      ((s.sources c).counter_has_enable || (s.sources c).counter_enabled) ∧
    (∀ i, i ≠ c → (clockcounter_add c s).2.sources i = s.sources i) ∧
    (clockcounter_remove c s).1 = OK ∧
    (clockcounter_remove c s).2.clockcounter_list =
      s.clockcounter_list.erase c ∧
    (∀ i, (clockcounter_remove c s).2.sources i = s.sources i) ∧
    (clockcounter_remove c s).2.global_clockcounter =
      s.global_clockcounter := by
  refine ⟨clockcounter_add_fst c s, clockcounter_add_list c s,
    clockcounter_add_enabled c s, ?_, rfl, rfl, ?_, rfl⟩
  · intro i hi
    exact clockcounter_add_sources_other c s i hi
  · intro i
    rfl

/-- Witness for C7 at a concrete registry: registering a fresh source leaves
source 0 untouched, and removing source 0 does not invoke its disable
operation (its contents, including the activation state, are unchanged). -/
theorem clockcounter_add_remove_contract_witness :
    (clockcounter_add 5 sFix).1 = OK ∧
    (clockcounter_add 5 sFix).2.sources 0 = sFix.sources 0 ∧
    (clockcounter_remove 0 sFix).2.sources 0 = sFix.sources 0 := by
  refine ⟨(clockcounter_add_remove_contract 5 sFix).1, ?_, ?_⟩
  · exact (clockcounter_add_remove_contract 5 sFix).2.2.2.1 0 (by decide)
  · exact (clockcounter_add_remove_contract 0 sFix).2.2.2.2.2.2.1 0

/-- **C9.**  `pm_timer_enable` configures the PM-timer ClockSource with
`counter_bits` 32 when the `ACPI_FADT_32BIT_TIMER` capability flag is set and
24 otherwise, the fixed `PM_TIMER_FREQUENCY`, `counter_resolution_ns` equal
to `NSECS_PER_SEC / PM_TIMER_FREQUENCY`, and a `counter_fixup_period` of two
seconds in nanoseconds, and returns success. -/
theorem pm_timer_enable_configures_descriptor (f : Bool) (c : clockcounter) :
    (pm_timer_enable f c).1 = OK ∧
    (pm_timer_enable f c).2.counter_bits = (if f then 32 else 24) ∧
    (pm_timer_enable f c).2.counter_frequency_hz = PM_TIMER_FREQUENCY ∧
    (pm_timer_enable f c).2.counter_resolution_ns =
      NSECS_PER_SEC / PM_TIMER_FREQUENCY ∧
    (pm_timer_enable f c).2.counter_fixup_period = 2 * NSECS_PER_SEC :=
  ⟨rfl, rfl, rfl, rfl, rfl⟩

/-- **C2 (code bug).**  `gettimeofday` and `getnstimeofday` do signal
`ENODEV` exactly when no source is active, but `get_now_nanosecond` ignores
`getnstimeofday`'s return status and converts its uninitialized stack local:
with no active source it returns whatever the stack held (5000000007 for
stack contents 5 s / 7 ns, 8000000001 for 8 s / 1 ns) — a garbage value, not
a device-unavailable signal — contradicting the claim that every Time Query
API operation returns either a valid time or the distinct `ENODEV` signal. -/
theorem get_now_nanosecond_returns_stack_garbage :
    (gettimeofday envFix sNoSrc).1 = ENODEV ∧
    (getnstimeofday envFix sNoSrc).1 = ENODEV ∧
    (get_now_nanosecond { tv_sec := 5, tv_nsec := 7 } envFix sNoSrc).1 =
      5000000007 ∧
    (get_now_nanosecond { tv_sec := 8, tv_nsec := 1 } envFix sNoSrc).1 =
      8000000001 := by
  decide

/-- **C3.**  With an active source, each advancement path —
`real_wall_time_regular_update`, `gettimeofday`, `getnstimeofday` — performs
exactly the sample-delta-accumulate step `spec_sample_delta_accumulate`: it
reads the previous `counter_latest_read`, stores the fresh `counter_read`
sample back, computes `counter_time_elapsed(prev, fresh)`, and adds that many
nanoseconds to `real_wall_time` with carry into seconds. -/
theorem advancement_paths_sample_delta_accumulate (env : CounterEnv)
    (s : KernelState) (i : Nat) (h : s.global_clockcounter = some i) :
    real_wall_time_regular_update env s =
      spec_sample_delta_accumulate env i s ∧
    gettimeofday env s =
      (OK,
       some { tv_sec := (spec_sample_delta_accumulate env i s).real_wall_time.tv_sec,
              tv_usec :=
                (spec_sample_delta_accumulate env i s).real_wall_time.tv_nsec / 1000 },
       spec_sample_delta_accumulate env i s) ∧
    getnstimeofday env s =
      (OK,
       some (spec_sample_delta_accumulate env i s).real_wall_time,
       spec_sample_delta_accumulate env i s) :=
  ⟨regular_update_some env s i h, gettimeofday_some env s i h,
   getnstimeofday_some env s i h⟩

/-- Witness for C3 at a concrete state with the PM timer active. -/
theorem advancement_paths_sample_delta_accumulate_witness :
    real_wall_time_regular_update envFix sFix =
      spec_sample_delta_accumulate envFix 0 sFix ∧
    gettimeofday envFix sFix =
      (OK,
       some { tv_sec := (spec_sample_delta_accumulate envFix 0 sFix).real_wall_time.tv_sec,
              tv_usec :=
                (spec_sample_delta_accumulate envFix 0 sFix).real_wall_time.tv_nsec / 1000 },
       spec_sample_delta_accumulate envFix 0 sFix) ∧
    getnstimeofday envFix sFix =
      (OK,
       some (spec_sample_delta_accumulate envFix 0 sFix).real_wall_time,
       spec_sample_delta_accumulate envFix 0 sFix) :=
  advancement_paths_sample_delta_accumulate envFix sFix 0 rfl

/-- **C4.**  For any sequence of advancement calls in which every elapsed
delta returned by `counter_time_elapsed` is non-negative, `real_wall_time`
viewed as nanoseconds since epoch is non-decreasing across the sequence. -/
theorem wall_clock_monotone (ops : List KernelOp) (s : KernelState)
    (_hadv : ∀ op ∈ ops, op.isAdvance = true)
    (hpos : ∀ d ∈ KernelOp.deltas ops s, 0 ≤ d) :
    ∀ n m, n ≤ m →
      ((KernelOp.execs (ops.take n) s).real_wall_time).toNs ≤
        ((KernelOp.execs (ops.take m) s).real_wall_time).toNs := by
  intro n m hnm
  have h1 : (ops.take m).take n = ops.take n := by
    rw [List.take_take, min_eq_left hnm]
  have hsplit : ops.take n ++ (ops.take m).drop n = ops.take m := by
    rw [← h1]
    exact List.take_append_drop n (ops.take m)
  rw [← hsplit, execs_append]
  refine wall_mono_aux _ _ ?_
  intro d hd
  apply hpos d
  have hops : ops = ops.take m ++ ops.drop m :=
    (List.take_append_drop m ops).symm
  rw [hops, deltas_append]
  apply List.mem_append.mpr
  left
  rw [← hsplit, deltas_append]
  exact List.mem_append.mpr (Or.inr hd)

/-- Witness for C4: two advancement calls on a concrete state with
non-negative deltas. -/
theorem wall_clock_monotone_witness :
    ((KernelOp.execs
        ([KernelOp.update envFix, KernelOp.gnstod envFix].take 1)
        sFix).real_wall_time).toNs ≤
      ((KernelOp.execs
        ([KernelOp.update envFix, KernelOp.gnstod envFix].take 2)
        sFix).real_wall_time).toNs :=
  wall_clock_monotone [KernelOp.update envFix, KernelOp.gnstod envFix] sFix
    (by decide) (by decide) 1 2 (by decide)

/-- **C5 counterexample.**  With only the PM timer active, its stored sample
at mid-range (0x800000 = 8388608 ticks) and an environment in which the
counter read fails while the duration computation answers per its 24-bit
wraparound contract, a single advancement call adds 2343484000 ns (≈ 2.34 s)
to `real_wall_time` — not zero — because the sentinel 0 is fed to
`counter_time_elapsed` as the fresh sample; and the following advancement
call, whose read succeeds with the true counter value 8388608, adds the same
huge spurious jump again, because the sentinel was stored as
`counter_latest_read`.  This falsifies "the wall-clock advancement for that
call contributes zero nanoseconds" and "no negative or huge spurious jump is
ever added ... including on the advancement call following a failed read". -/
theorem pm_timer_read_failure_spurious_jump :
    aenvReadFail.acpi_get_timer = none ∧
    (pm_timer_counter_read aenvReadFail).1 = 0 ∧
    ((real_wall_time_regular_update (pm_env aenvReadFail)
        sPmMid).real_wall_time).toNs =
      sPmMid.real_wall_time.toNs + 2343484000 ∧
    ((real_wall_time_regular_update (pm_env aenvReadOk)
        (real_wall_time_regular_update (pm_env aenvReadFail)
          sPmMid)).real_wall_time).toNs =
      sPmMid.real_wall_time.toNs + 4686968000 := by
  decide

/-- **C5 (amended).**  When `AcpiGetTimer` fails, `pm_timer_counter_read`
logs the failure and returns the sentinel 0; when `AcpiGetTimerDuration`
fails, `pm_timer_counter_time_elapsed` logs the failure and returns the
sentinel 0, and an advancement call whose duration computation fails
contributes exactly zero nanoseconds to `real_wall_time`; the driver's
elapsed value is never negative.  (A failed *read*, however, poisons
`counter_latest_read` with the sentinel, so the elapsed computation of that
call and the next can add a large spurious positive jump — see the
counterexample.) -/
theorem pm_timer_failure_sentinel_and_zero_delta (e : AcpiEnv) (t1 t2 : Nat)
    (s : KernelState) :
    (e.acpi_get_timer = none →
      pm_timer_counter_read e =
        (0, ["pm_timer_counter_read - AcpiGetTimer fail\n"])) ∧
    (e.acpi_get_timer_duration (t1 % 2 ^ 32) (t2 % 2 ^ 32) = none →
      pm_timer_counter_time_elapsed e t1 t2 =
        (0, ["pm_timer_counter_time_elapsed - AcpiGetTimerDuration fail\n"])) ∧
    0 ≤ (pm_timer_counter_time_elapsed e t1 t2).1 ∧
    ((∀ a b, e.acpi_get_timer_duration a b = none) →
      ((real_wall_time_regular_update (pm_env e) s).real_wall_time).toNs =
        s.real_wall_time.toNs) := by
  refine ⟨?_, ?_, ?_, ?_⟩
  · intro h
    unfold pm_timer_counter_read
    rw [h]
  · intro h
    unfold pm_timer_counter_time_elapsed
    rw [h]
  · unfold pm_timer_counter_time_elapsed
    cases hdur : e.acpi_get_timer_duration (t1 % 2 ^ 32) (t2 % 2 ^ 32) with
    | none => exact le_refl 0
    | some us => exact Int.ofNat_nonneg _
  · intro h
    have helapsed : ∀ a b : Nat, (pm_env e).elapsed a b = 0 := by
      intro a b
      show (pm_timer_counter_time_elapsed e a b).1 = 0
      unfold pm_timer_counter_time_elapsed
      rw [h]
    cases hg : s.global_clockcounter with
    | none => rw [regular_update_none _ _ hg]
    | some i =>
        rw [regular_update_some _ _ i hg, spec_step_wall,
          toNs_timespec_add_ns, helapsed]
        omega

/-- Witness for C5 (amended): both collaborator calls fail; the sentinels and
log lines are produced and the wall clock is unchanged. -/
theorem pm_timer_failure_sentinel_and_zero_delta_witness :
    pm_timer_counter_read aenvAllFail =
      (0, ["pm_timer_counter_read - AcpiGetTimer fail\n"]) ∧
    pm_timer_counter_time_elapsed aenvAllFail 1 2 =
      (0, ["pm_timer_counter_time_elapsed - AcpiGetTimerDuration fail\n"]) ∧
    ((real_wall_time_regular_update (pm_env aenvAllFail)
        sFix).real_wall_time).toNs = sFix.real_wall_time.toNs := by
  obtain ⟨h1, h2, _, h4⟩ :=
    pm_timer_failure_sentinel_and_zero_delta aenvAllFail 1 2 sFix
  exact ⟨h1 rfl, h2 rfl, h4 (fun a b => rfl)⟩

/-- **C8.**  `getnstimeofday` performs the same wall-clock advancement as
`gettimeofday` and differs only in output resolution: from the same state
with the same counter samples both produce the same updated state (hence the
same `real_wall_time`), `getnstimeofday` writes the updated WallClock at full
nanosecond resolution, and `gettimeofday` writes the same `tv_sec` with
`tv_usec` equal to that `tv_nsec` truncated by integer division by 1000. -/
theorem getnstimeofday_refines_gettimeofday (env : CounterEnv)
    (s : KernelState) (i : Nat) (h : s.global_clockcounter = some i) :
    (gettimeofday env s).2.2 = (getnstimeofday env s).2.2 ∧
    (gettimeofday env s).1 = OK ∧
    (getnstimeofday env s).1 = OK ∧
    (getnstimeofday env s).2.1 =
      some ((getnstimeofday env s).2.2.real_wall_time) ∧
    (gettimeofday env s).2.1 =
      some { tv_sec := ((getnstimeofday env s).2.2.real_wall_time).tv_sec,
             tv_usec :=
               ((getnstimeofday env s).2.2.real_wall_time).tv_nsec / 1000 } := by
  rw [gettimeofday_some env s i h, getnstimeofday_some env s i h]
  exact ⟨rfl, rfl, rfl, rfl, rfl⟩

/-- Witness for C8 at a concrete state with the PM timer active. -/
theorem getnstimeofday_refines_gettimeofday_witness :
    (gettimeofday envFix sFix).2.2 = (getnstimeofday envFix sFix).2.2 ∧
    (gettimeofday envFix sFix).2.1 =
      some { tv_sec := ((getnstimeofday envFix sFix).2.2.real_wall_time).tv_sec,
             tv_usec :=
               ((getnstimeofday envFix sFix).2.2.real_wall_time).tv_nsec / 1000 } := by
  obtain ⟨h1, _, _, _, h5⟩ :=
    getnstimeofday_refines_gettimeofday envFix sFix 0 rfl
  exact ⟨h1, h5⟩

/-- **C10.**  After `clockcounter_subsystem_init` runs (for any contents of
the externally declared `clockcounter_pm_counter` and any prior wall-clock
value), `global_clockcounter` is non-NULL, and it stays non-NULL under every
subsequent sequence of subsystem calls; `clockcounter_remove` never touches
`global_clockcounter` at all — in particular when applied to the active
source — so the `ENODEV` branch of `gettimeofday`/`getnstimeofday` is
unreachable after initialization. -/
theorem global_clockcounter_never_null_after_init (pc : clockcounter)
    (w : timespec) (ops : List KernelOp) (env : CounterEnv) :
    ((KernelOp.execs ops
        (clockcounter_subsystem_init pc w)).global_clockcounter).isSome =
      true ∧
    (∀ c s, (clockcounter_remove c s).2.global_clockcounter =
      s.global_clockcounter) ∧
    (gettimeofday env
      (KernelOp.execs ops (clockcounter_subsystem_init pc w))).1 = OK ∧
    (getnstimeofday env
      (KernelOp.execs ops (clockcounter_subsystem_init pc w))).1 = OK ∧
    (gettimeofday env
      (KernelOp.execs ops (clockcounter_subsystem_init pc w))).1 ≠ ENODEV := by
  have hs := execs_global_isSome ops _ (init_global_isSome pc w)
  refine ⟨hs, fun c s => rfl, gettimeofday_fst_of_isSome env _ hs,
    getnstimeofday_fst_of_isSome env _ hs, ?_⟩
  rw [gettimeofday_fst_of_isSome env _ hs]
  decide

/-- Witness for C10: initialize, then remove both registered sources — the
active one included; the active pointer survives and the queries still do not
signal `ENODEV`. -/
theorem global_clockcounter_never_null_after_init_witness :
    ((KernelOp.execs [KernelOp.remove 0, KernelOp.remove 1]
        (clockcounter_subsystem_init hrFix
          { tv_sec := 0, tv_nsec := 0 })).global_clockcounter).isSome =
      true ∧
    (gettimeofday envFix
      (KernelOp.execs [KernelOp.remove 0, KernelOp.remove 1]
        (clockcounter_subsystem_init hrFix
          { tv_sec := 0, tv_nsec := 0 }))).1 ≠ ENODEV := by
  obtain ⟨h1, _, _, _, h5⟩ :=
    global_clockcounter_never_null_after_init hrFix
      { tv_sec := 0, tv_nsec := 0 }
      [KernelOp.remove 0, KernelOp.remove 1] envFix
  exact ⟨h1, h5⟩

end CellOS
